import Mathlib

/-
  Shallow embedding of the Delivery-App order lifecycle engine
  (server/routes/orders.js, server/routes/payment.js,
   server/routes/restaurants.js, server/routes/realtime.js,
   server/models/Order.js, server/models/MenuItem.js).

  Money amounts are modelled as integers (whole rupees), as in all of the
  repository's own data; JS `Math.round` applied to an already-integral
  amount is the identity and is written as such.  JS falsy defaulting
  (`x || d`, where 0 and "" are falsy) is modelled by `jsOr` / `jsStrOr`.
-/

namespace DeliveryApp

/-- JS `x || d` on a number: `0` is falsy and is replaced by the default. -/
def jsOr (x d : Int) : Int := if x = 0 then d else x

/-- JS `x || d` on an optional number: `undefined` and `0` are falsy. -/
def jsOrOpt (x : Option Int) (d : Int) : Int :=
  match x with
  | none => d
  | some v => if v = 0 then d else v

/-- JS `x || d` on an optional string: `undefined` and `""` are falsy. -/
def jsStrOr (x : Option String) (d : String) : String :=
  match x with
  | none => d
  | some s => if s = "" then d else s

/-- `Math.round(t * 0.05)` for an integral amount `t` (orders.js 363).
    `Math.round q = ⌊q + 1/2⌋`, and `⌊t·5/100 + 1/2⌋ = ⌊(t·5 + 50)/100⌋`,
    written with flooring integer division. -/
def jsRoundTax (t : Int) : Int := (t * 5 + 50).fdiv 100

/-- JS `Math.max` on two numbers. -/
def jsMax (a b : Int) : Int := if a < b then b else a

/-- Restaurant record (server/models/Restaurant is external; the fields
    consumed by the order routes are embedded). -/
structure Restaurant where
  _id : Nat
  userId : Nat
  isActive : Bool
  isAcceptingOrders : Bool
  minimumOrder : Int
  deliveryFee : Int
  estimatedDeliveryTime : Option Int
deriving DecidableEq, Repr

/-- Menu item record (server/models/MenuItem.js), the fields consumed by
    order placement. -/
structure MenuItem where
  _id : Nat
  restaurantId : Nat
  name : String
  price : Int
  discountedPrice : Option Int
  isAvailable : Bool
  preparationTime : Option Int
deriving DecidableEq, Repr

/-- OrderItemSchema (server/models/Order.js): name and price are snapshots. -/
structure OrderItem where
  menuItem : Nat
  name : String
  price : Int
  quantity : Int
  specialInstructions : String
deriving DecidableEq, Repr

/-- OrderTrackingSchema (server/models/Order.js): `status` is a free string. -/
structure TrackingEntry where
  status : String
  message : String
  updatedBy : Nat
  timestamp : Int
deriving DecidableEq, Repr

/-- Denormalized delivery address stored on the order. -/
structure DeliveryAddress where
  street : String
  city : String
  state : String
  pincode : String
  landmark : String
  contactPhone : String
deriving DecidableEq, Repr

/-- OrderSchema (server/models/Order.js).  `status` and `paymentStatus` are
    strings, as in the Mongoose schema (enum-validated only on `save`). -/
structure Order where
  _id : Nat
  orderNumber : String
  customer : Nat
  restaurant : Nat
  items : List OrderItem
  itemsTotal : Int
  deliveryFee : Int
  taxes : Int
  discount : Int
  totalAmount : Int
  deliveryAddress : DeliveryAddress
  status : String
  paymentStatus : String
  paymentMethod : String
  paymentId : Option String
  estimatedDeliveryTime : Int
  actualDeliveryTime : Option Int
  preparationTime : Int
  specialInstructions : String
  tracking : List TrackingEntry
deriving DecidableEq, Repr

/-- The document store. -/
structure DB where
  restaurants : List Restaurant
  menuItems : List MenuItem
  orders : List Order
  nextOrderId : Nat
deriving DecidableEq, Repr

def DB.empty : DB := { restaurants := [], menuItems := [], orders := [], nextOrderId := 1 }

def findRestaurant (db : DB) (i : Nat) : Option Restaurant :=
  db.restaurants.find? (fun r => r._id == i)

def findMenuItem (db : DB) (i : Nat) : Option MenuItem :=
  db.menuItems.find? (fun m => m._id == i)

def findOrder (db : DB) (i : Nat) : Option Order :=
  db.orders.find? (fun o => o._id == i)

/-- The authenticated request user attached by the `protect` middleware. -/
structure UserCtx where
  _id : Nat
  role : String
  phone : Option String
deriving DecidableEq, Repr

/-- One entry of the request's `items` array (POST /api/orders body). -/
structure CartItem where
  menuItem : Option Nat
  quantity : Int
  specialInstructions : Option String
deriving DecidableEq, Repr

/-- Optional address fields of the request body. -/
structure AddressInput where
  street : Option String
  city : Option String
  state : Option String
  pincode : Option String
  landmark : Option String
  contactPhone : Option String
deriving DecidableEq, Repr

/-- POST /api/orders request body. -/
structure PlaceRequest where
  restaurantId : Option Nat
  items : List CartItem
  deliveryAddress : Option AddressInput
  paymentMethod : Option String
  specialInstructions : Option String
deriving DecidableEq, Repr

/-- Failure branches of POST /api/orders (orders.js 264-359), one per
    early `return res.status(...)`. -/
inductive PlaceError
  | restaurantIdRequired
  | emptyItems
  | invalidItem
  | restaurantNotFound
  | restaurantClosed
  | menuItemNotFound (menuItem : Nat)
  | itemUnavailable (name : String)
  | itemMismatch (name : String)
  | belowMinimumOrder (minimum : Int) (current : Int)
deriving DecidableEq, Repr

/-- `menuItem.discountedPrice || menuItem.price` (orders.js 339). -/
def effectivePrice (m : MenuItem) : Int := jsOrOpt m.discountedPrice m.price

/-- The per-item validation/pricing loop (orders.js 309-351): returns the
    order items with snapshots, the raw items total and the maximum
    preparation time, or the first validation failure. -/
def processItems (db : DB) (restaurantId : Nat) :
    List CartItem → Except PlaceError (List OrderItem × Int × Int)
  | [] => .ok ([], 0, 0)
  | it :: rest =>
    match it.menuItem with
    | none => .error .invalidItem
    | some mid =>
      if it.quantity < 1 then .error .invalidItem
      else
        match findMenuItem db mid with
        | none => .error (.menuItemNotFound mid)
        | some m =>
          if !m.isAvailable then .error (.itemUnavailable m.name)
          else if m.restaurantId ≠ restaurantId then .error (.itemMismatch m.name)
          else
            match processItems db restaurantId rest with
            | .error e => .error e
            | .ok (os, total, prep) =>
              .ok (⟨m._id, m.name, effectivePrice m, it.quantity,
                    jsStrOr it.specialInstructions ""⟩ :: os,
                   effectivePrice m * it.quantity + total,
                   jsMax (jsOrOpt m.preparationTime 15) prep)

/-- orders.js 279-286: defaulted delivery address. -/
def defaultAddress (addr : Option AddressInput) (userPhone : Option String) :
    DeliveryAddress :=
  { street := jsStrOr (addr.bind (·.street)) "Test Street, Sector 15",
    city := jsStrOr (addr.bind (·.city)) "Sonipat",
    state := jsStrOr (addr.bind (·.state)) "Haryana",
    pincode := jsStrOr (addr.bind (·.pincode)) "131001",
    landmark := jsStrOr (addr.bind (·.landmark)) "Near Test Location",
    contactPhone := jsStrOr (addr.bind (·.contactPhone)) (jsStrOr userPhone "9999999999") }

/-- `count.toString().padStart(4, '0')` (Order.js 137). -/
def padStart4 (n : Nat) : String :=
  let s := toString n
  String.mk (List.replicate (4 - s.length) '0') ++ s

/-- POST /api/orders (orders.js 251-429).  Returns the store after the call
    and the created order or the first validation failure.  `now` stands
    for `Date.now()` in minutes; on any failure the store is returned
    unchanged (nothing was written before `Order.create`). -/
def placeOrder (db : DB) (user : UserCtx) (req : PlaceRequest) (now : Int) :
    DB × Except PlaceError Order :=
  match req.restaurantId with
  | none => (db, .error .restaurantIdRequired)
  | some restaurantId =>
    if req.items.isEmpty then (db, .error .emptyItems)
    else
      match findRestaurant db restaurantId with
      | none => (db, .error .restaurantNotFound)
      | some restaurant =>
        if !(restaurant.isActive && restaurant.isAcceptingOrders) then
          (db, .error .restaurantClosed)
        else
          match processItems db restaurantId req.items with
          | .error e => (db, .error e)
          | .ok (orderItems, itemsTotal, maxPreparationTime) =>
            if itemsTotal < restaurant.minimumOrder then
              (db, .error (.belowMinimumOrder restaurant.minimumOrder itemsTotal))
            else
              let deliveryFee := jsOr restaurant.deliveryFee 30
              let taxes := jsRoundTax itemsTotal
              let totalAmount := itemsTotal + deliveryFee + taxes
              let paymentMethod := jsStrOr req.paymentMethod "cod"
              let o : Order :=
                { _id := db.nextOrderId,
                  orderNumber := "DE" ++ toString now ++ padStart4 db.orders.length,
                  customer := user._id,
                  restaurant := restaurantId,
                  items := orderItems,
                  itemsTotal := itemsTotal,
                  deliveryFee := deliveryFee,
                  taxes := taxes,
                  discount := 0,
                  totalAmount := totalAmount,
                  deliveryAddress := defaultAddress req.deliveryAddress user.phone,
                  status := "placed",
                  paymentStatus := if paymentMethod = "cod" then "pending" else "pending",
                  paymentMethod := paymentMethod,
                  paymentId := none,
                  estimatedDeliveryTime :=
                    now + maxPreparationTime + jsOrOpt restaurant.estimatedDeliveryTime 30,
                  actualDeliveryTime := none,
                  preparationTime := maxPreparationTime,
                  specialInstructions := jsStrOr req.specialInstructions "",
                  tracking := [⟨"placed", "Order placed successfully", user._id, now⟩] }
              ({ db with orders := db.orders ++ [o], nextOrderId := db.nextOrderId + 1 },
               .ok o)

/-- Failure branches of PUT /api/orders/:id/status (orders.js 506-564). -/
inductive UpdateError
  | invalidStatus
  | orderNotFound
deriving DecidableEq, Repr

/-- orders.js 510: the accepted values for a status update.  Note "placed"
    and "refunded" are absent. -/
def validStatuses : List String :=
  ["confirmed", "preparing", "ready", "picked-up", "out-for-delivery", "delivered", "cancelled"]

/-- Replace the order with the given id in the store (findById + save). -/
def saveOrder (db : DB) (orderId : Nat) (o' : Order) : DB :=
  { db with orders := db.orders.map (fun x => if x._id == orderId then o' else x) }

/-- orders.js 533-543: overwrite the status, append one tracking entry and
    stamp `actualDeliveryTime` when the new status is "delivered". -/
def applyStatusUpdate (user : UserCtx) (st : String) (msg : Option String)
    (now : Int) (o : Order) : Order :=
  { o with
    status := st,
    tracking := o.tracking ++ [⟨st, jsStrOr msg ("Order " ++ st), user._id, now⟩],
    actualDeliveryTime := if st = "delivered" then some now else o.actualDeliveryTime }

/-- PUT /api/orders/:id/status (orders.js 506-564).  There is no ownership,
    role or terminal-state check: any authenticated user may update any
    existing order to any accepted status. -/
def updateStatus (db : DB) (user : UserCtx) (orderId : Nat) (st : String)
    (msg : Option String) (now : Int) : DB × Except UpdateError Order :=
  if !(validStatuses.contains st) then (db, .error .invalidStatus)
  else
    match findOrder db orderId with
    | none => (db, .error .orderNotFound)
    | some o =>
      (saveOrder db orderId (applyStatusUpdate user st msg now o),
       .ok (applyStatusUpdate user st msg now o))

/-- Failure branches of GET /api/orders/:id (orders.js 469-503). -/
inductive GetError
  | orderNotFound
  | accessDenied
deriving DecidableEq, Repr

/-- GET /api/orders/:id (orders.js 469-503): readable only by the owning
    customer or an admin. -/
def getOrder (db : DB) (user : UserCtx) (orderId : Nat) : Except GetError Order :=
  match findOrder db orderId with
  | none => .error .orderNotFound
  | some o =>
    if o.customer ≠ user._id && user.role ≠ "admin" then .error .accessDenied
    else .ok o

/-- Failure branches of the payment routes (payment.js). -/
inductive PayError
  | missingFields
  | orderNotFound
  | notAuthorized
  | amountMismatch
deriving DecidableEq, Repr

/-- payment.js 67: record the generated gateway order id on the order. -/
def createApply (now : Int) (o : Order) : Order :=
  { o with paymentId := some ("order_" ++ toString now) }

/-- POST /api/payment/create-order (payment.js 12-93): records a generated
    gateway payment id on the order after an ownership and amount check. -/
def paymentCreateOrder (db : DB) (user : UserCtx) (orderId : Nat) (amount : Int)
    (now : Int) : DB × Except PayError Order :=
  if amount = 0 then (db, .error .missingFields)
  else
    match findOrder db orderId with
    | none => (db, .error .orderNotFound)
    | some o =>
      if o.customer ≠ user._id then (db, .error .notAuthorized)
      else if amount ≠ o.totalAmount then (db, .error .amountMismatch)
      else (saveOrder db orderId (createApply now o), .ok (createApply now o))

/-- payment.js 121-130: the per-order mutation of a successful payment
    verification. -/
def verifyApply (user : UserCtx) (paymentId : String) (now : Int) (o : Order) : Order :=
  { o with
    paymentStatus := "paid",
    paymentId := some paymentId,
    status := "confirmed",
    tracking := o.tracking ++
      [⟨"payment_confirmed", "Payment successful - Order confirmed", user._id, now⟩] }

/-- POST /api/payment/verify (payment.js 98-152): unconditionally marks the
    payment paid, records the gateway payment id, sets the order status to
    "confirmed" and appends a tracking entry labelled "payment_confirmed".
    No terminal-state check is performed. -/
def paymentVerify (db : DB) (user : UserCtx) (orderId : Nat) (paymentId : String)
    (now : Int) : DB × Except PayError Order :=
  if paymentId = "" then (db, .error .missingFields)
  else
    match findOrder db orderId with
    | none => (db, .error .orderNotFound)
    | some o =>
      (saveOrder db orderId (verifyApply user paymentId now o),
       .ok (verifyApply user paymentId now o))

/-- payment.js 170-176: the per-order mutation of a failed payment. -/
def failedApply (user : UserCtx) (reason : Option String) (now : Int) (o : Order) : Order :=
  { o with
    paymentStatus := "failed",
    tracking := o.tracking ++
      [⟨"payment_failed", "Payment failed: " ++ jsStrOr reason "Unknown error",
        user._id, now⟩] }

/-- POST /api/payment/failed (payment.js 157-197): marks the payment failed
    and appends a tracking entry labelled "payment_failed"; the order's
    status field is left unchanged. -/
def paymentFailed (db : DB) (user : UserCtx) (orderId : Nat) (reason : Option String)
    (now : Int) : DB × Except PayError Order :=
  match findOrder db orderId with
  | none => (db, .error .orderNotFound)
  | some o =>
    (saveOrder db orderId (failedApply user reason now o),
     .ok (failedApply user reason now o))

/-- Failure branches of PUT /api/restaurants/orders/bulk-update
    (restaurants.js 413-459). -/
inductive BulkError
  | missingFields
  | restaurantNotFound
deriving DecidableEq, Repr

/-- The response of the bulk update: the count actually modified and the
    status applied. -/
structure BulkResult where
  updatedCount : Nat
  newStatus : String
deriving DecidableEq, Repr

/-- The `updateMany` filter (restaurants.js 434-437): submitted id and
    owned by the caller's restaurant. -/
def bulkMatch (orderIds : List Nat) (restaurantId : Nat) (o : Order) : Bool :=
  orderIds.contains o._id && o.restaurant == restaurantId

/-- The `updateMany` update (restaurants.js 438-447): `$set` the status and
    `$push` one tracking entry.  `updateMany` bypasses the schema enum
    validation, so any status string is stored. -/
def bulkApply (user : UserCtx) (st : String) (msg : Option String) (now : Int)
    (o : Order) : Order :=
  { o with
    status := st,
    tracking := o.tracking ++ [⟨st, jsStrOr msg ("Bulk updated to " ++ st), user._id, now⟩] }

/-- PUT /api/restaurants/orders/bulk-update (restaurants.js 413-459): a
    filtered mass update scoped to the restaurant owned by the caller,
    reporting `modifiedCount`. -/
def bulkUpdate (db : DB) (user : UserCtx) (orderIds : List Nat) (st : String)
    (msg : Option String) (now : Int) : DB × Except BulkError BulkResult :=
  if st = "" then (db, .error .missingFields)
  else
    match db.restaurants.find? (fun r => r.userId == user._id) with
    | none => (db, .error .restaurantNotFound)
    | some restaurant =>
      ({ db with orders := db.orders.map (fun o =>
          if bulkMatch orderIds restaurant._id o then bulkApply user st msg now o else o) },
       .ok ⟨(db.orders.filter (bulkMatch orderIds restaurant._id)).length, st⟩)

/-- A socket.io emission: its audience and the event name, together with
    the `type` field of the payload when the payload carries one. -/
inductive EmitTarget
  | all
  | room (name : String)
deriving DecidableEq, Repr

structure Emission where
  target : EmitTarget
  event : String
  typeMark : Option String
deriving DecidableEq, Repr

/-- The join-room handler of the socket server (part_003 lines 74-96): each
    connection joins at most the one room matching its declared identity. -/
def joinRoom (userId : Nat) (role : String) (restaurantsId : Nat) : Option String :=
  if role = "customer" then some ("customer-" ++ toString userId)
  else if role = "restaurants" then some ("restaurants-" ++ toString restaurantsId)
  else if role = "admin" then some "admin-room"
  else none

/-- Emissions performed while handling POST /api/orders (orders.js
    251-429): the route contains no `io.emit` or room emission at all. -/
def placeOrderEmissions (db : DB) (user : UserCtx) (req : PlaceRequest) (now : Int) :
    List Emission := []

/-- Emissions performed while handling PUT /api/orders/:id/status
    (orders.js 506-564): the route contains no `io.emit` at all. -/
def updateStatusEmissions (db : DB) (user : UserCtx) (orderId : Nat) (st : String)
    (msg : Option String) (now : Int) : List Emission := []

/-- POST /api/realtime/test-notification (realtime.js 6-44): when the
    socket server is available, one `io.emit` to every connected client,
    whose payload carries an explicit `type` field defaulting to
    "broadcast". -/
def testNotificationEmissions (ioAvailable : Bool) (ty : Option String)
    (msg : Option String) : List Emission :=
  if ioAvailable then [⟨.all, "test-notification", some (ty.getD "broadcast")⟩] else []

/-- All emissions the server can perform for one request of each kind. -/
def systemEmissions (db : DB) (user : UserCtx) (req : PlaceRequest) (orderId : Nat)
    (st : String) (msg : Option String) (now : Int) (ioAvailable : Bool)
    (ty : Option String) (tmsg : Option String) : List Emission :=
  placeOrderEmissions db user req now ++
  updateStatusEmissions db user orderId st msg now ++
  testNotificationEmissions ioAvailable ty tmsg

/-- The terminal statuses of the design (spec section 4.3). -/
def terminalStatuses : List String := ["delivered", "cancelled", "refunded"]

/-- The stores reachable from the empty store through the embedded
    operations, with restaurants and menu items seeded arbitrarily. -/
inductive Reach : DB → Prop
  | init : Reach DB.empty
  | seedRestaurant (r : Restaurant) (db : DB) : Reach db →
      Reach { db with restaurants := r :: db.restaurants }
  | seedMenuItem (m : MenuItem) (db : DB) : Reach db →
      Reach { db with menuItems := m :: db.menuItems }
  | place (u : UserCtx) (req : PlaceRequest) (now : Int) (db : DB) : Reach db →
      Reach (placeOrder db u req now).1
  | status (u : UserCtx) (oid : Nat) (st : String) (msg : Option String) (now : Int)
      (db : DB) : Reach db → Reach (updateStatus db u oid st msg now).1
  | payCreate (u : UserCtx) (oid : Nat) (amount : Int) (now : Int) (db : DB) :
      Reach db → Reach (paymentCreateOrder db u oid amount now).1
  | payVerify (u : UserCtx) (oid : Nat) (pid : String) (now : Int) (db : DB) :
      Reach db → Reach (paymentVerify db u oid pid now).1
  | payFailed (u : UserCtx) (oid : Nat) (reason : Option String) (now : Int) (db : DB) :
      Reach db → Reach (paymentFailed db u oid reason now).1
  | bulk (u : UserCtx) (oids : List Nat) (st : String) (msg : Option String) (now : Int)
      (db : DB) : Reach db → Reach (bulkUpdate db u oids st msg now).1

instance {e a : Type} [DecidableEq e] [DecidableEq a] : DecidableEq (Except e a) :=
  fun x y =>
    match x, y with
    | .ok v, .ok w => decidable_of_iff (v = w) (by simp)
    | .error v, .error w => decidable_of_iff (v = w) (by simp)
    | .ok _, .error _ => isFalse (by intro h; cases h)
    | .error _, .ok _ => isFalse (by intro h; cases h)

/-
  Concrete sample data, mirroring the repository's own test fixtures
  (orders.js setup-test-data): used by the witnesses and counterexamples.
-/

def rest1 : Restaurant := ⟨1, 10, true, true, 50, 30, some 25⟩

/-- A restaurant whose flat delivery fee is zero. -/
def restZero : Restaurant := ⟨2, 11, true, true, 0, 0, some 25⟩

def item1 : MenuItem := ⟨1, 1, "Butter Chicken", 100, none, true, some 20⟩

/-- An unavailable menu item of restaurant 1. -/
def item2 : MenuItem := ⟨2, 1, "Dal Makhani", 80, none, false, some 10⟩

def item3 : MenuItem := ⟨3, 2, "Masala Dosa", 100, none, true, some 10⟩

def db0 : DB :=
  { restaurants := [rest1, restZero], menuItems := [item1, item2, item3],
    orders := [], nextOrderId := 1 }

def cust5 : UserCtx := ⟨5, "customer", none⟩

def u99 : UserCtx := ⟨99, "delivery", none⟩

def owner10 : UserCtx := ⟨10, "restaurant", none⟩

def u77 : UserCtx := ⟨77, "customer", none⟩

/-- A cart of two Butter Chicken against restaurant 1 (the spec's
    round-trip example: itemsTotal 200, taxes 10, totalAmount 240). -/
def req1 : PlaceRequest := ⟨some 1, [⟨some 1, 2, none⟩], none, none, none⟩

/-- A cart against the zero-delivery-fee restaurant. -/
def reqZero : PlaceRequest := ⟨some 2, [⟨some 3, 1, none⟩], none, none, none⟩

/-- A cart with a quantity-zero line against a nonexistent restaurant. -/
def reqBadQty : PlaceRequest := ⟨some 999, [⟨some 1, 0, none⟩], none, none, none⟩

/-- A cart containing the unavailable item2. -/
def reqUnavail : PlaceRequest :=
  ⟨some 1, [⟨some 1, 1, none⟩, ⟨some 2, 1, none⟩], none, none, none⟩

/-- db0 after successfully placing req1. -/
def dbP : DB := (placeOrder db0 cust5 req1 0).1

/-- The order persisted by placing req1 in db0. -/
def placedOrder1 : Order :=
  ((placeOrder db0 cust5 req1 0).2.toOption).getD
    ⟨0, "", 0, 0, [], 0, 0, 0, 0, 0, defaultAddress none none, "", "", "", none, 0, none, 0, "", []⟩

/-- An order that has reached the terminal status "delivered". -/
def deliveredOrder : Order :=
  { _id := 1, orderNumber := "DE00000", customer := 5, restaurant := 1,
    items := [⟨1, "Butter Chicken", 100, 2, ""⟩],
    itemsTotal := 200, deliveryFee := 30, taxes := 10, discount := 0, totalAmount := 240,
    deliveryAddress := defaultAddress none none,
    status := "delivered", paymentStatus := "pending", paymentMethod := "cod",
    paymentId := none, estimatedDeliveryTime := 45, actualDeliveryTime := some 40,
    preparationTime := 20, specialInstructions := "",
    tracking := [⟨"placed", "Order placed successfully", 5, 0⟩,
                 ⟨"delivered", "Order delivered", 9, 40⟩] }

/-- db0 with one already-delivered order in the store. -/
def db1 : DB := { db0 with orders := [deliveredOrder], nextOrderId := 2 }

/-- A placed order of restaurant `rid` with id `i`, for the bulk-update
    scenario. -/
def mkOrd (i rid : Nat) : Order :=
  { deliveredOrder with
    _id := i, restaurant := rid, status := "placed",
    actualDeliveryTime := none,
    tracking := [⟨"placed", "Order placed successfully", 5, 0⟩] }

/-- Five orders: three of restaurant 1 (owned by user 10), two of
    restaurant 2. -/
def db8 : DB :=
  { db0 with
    orders := [mkOrd 1 1, mkOrd 2 1, mkOrd 3 1, mkOrd 4 2, mkOrd 5 2],
    nextOrderId := 6 }

/-- db0 reached from the empty store by seeding. -/
def reachDb0 : Reach db0 :=
  .seedMenuItem item1 _ (.seedMenuItem item2 _ (.seedMenuItem item3 _
    (.seedRestaurant rest1 _ (.seedRestaurant restZero _ .init))))

/-- dbP reached by placing req1 in db0. -/
def reachDbP : Reach dbP := .place cust5 req1 0 db0 reachDb0



lemma placeOrder_spec (db : DB) (u : UserCtx) (req : PlaceRequest) (now : Int) :
    (∃ e, placeOrder db u req now = (db, Except.error e)) ∨
    (∃ rid restaurant o os itemsTotal maxPrep,
      req.restaurantId = some rid ∧
      findRestaurant db rid = some restaurant ∧
      processItems db rid req.items = .ok (os, itemsTotal, maxPrep) ∧
      placeOrder db u req now =
        ({ db with orders := db.orders ++ [o], nextOrderId := db.nextOrderId + 1 },
         .ok o) ∧
      o.items = os ∧ o.itemsTotal = itemsTotal ∧
      o.deliveryFee = jsOr restaurant.deliveryFee 30 ∧
      o.taxes = jsRoundTax itemsTotal ∧
      o.discount = 0 ∧
      o.totalAmount = itemsTotal + jsOr restaurant.deliveryFee 30 + jsRoundTax itemsTotal ∧
      o.status = "placed" ∧
      o.tracking = [⟨"placed", "Order placed successfully", u._id, now⟩]) := by
  unfold placeOrder
  split
  · exact Or.inl ⟨_, rfl⟩
  next rid hreq =>
    split
    · exact Or.inl ⟨_, rfl⟩
    · split
      · exact Or.inl ⟨_, rfl⟩
      next restaurant hrest =>
        split
        · exact Or.inl ⟨_, rfl⟩
        · split
          · exact Or.inl ⟨_, rfl⟩
          next os itemsTotal maxPrep hproc =>
            split
            · exact Or.inl ⟨_, rfl⟩
            · exact Or.inr ⟨rid, restaurant, _, os, itemsTotal, maxPrep, hreq, hrest,
                hproc, rfl, rfl, rfl, rfl, rfl, rfl, rfl, rfl, rfl⟩

lemma placeOrder_ok_fields {db : DB} {u : UserCtx} {req : PlaceRequest} {now : Int}
    {o : Order} (h : (placeOrder db u req now).2 = .ok o) :
    o.discount = 0 ∧ o.totalAmount = o.itemsTotal + o.deliveryFee + o.taxes ∧
    o.status = "placed" ∧
    o.tracking = [⟨"placed", "Order placed successfully", u._id, now⟩] ∧
    o.taxes = jsRoundTax o.itemsTotal := by
  rcases placeOrder_spec db u req now with ⟨e, he⟩ |
    ⟨rid, r, o', os, t, mp, _, _, _, heq, _, hit, hfee, htax, hdisc, htot, hst, htr⟩
  · rw [he] at h; cases h
  · rw [heq] at h
    injection h with h'
    subst h'
    exact ⟨hdisc, by rw [htot, hit, hfee, htax], hst, htr, by rw [htax, hit]⟩

lemma placeOrder_error_db {db : DB} {u : UserCtx} {req : PlaceRequest} {now : Int}
    {e : PlaceError} (h : (placeOrder db u req now).2 = .error e) :
    (placeOrder db u req now).1 = db := by
  rcases placeOrder_spec db u req now with ⟨e', he⟩ | ⟨_, _, _, _, _, _, _, _, _, heq, _⟩
  · rw [he]
  · rw [heq] at h ⊢; cases h

lemma updateStatus_spec (db : DB) (u : UserCtx) (oid : Nat) (st : String)
    (msg : Option String) (now : Int) :
    (validStatuses.contains st = false ∧
      updateStatus db u oid st msg now = (db, .error .invalidStatus)) ∨
    (findOrder db oid = none ∧
      updateStatus db u oid st msg now = (db, .error .orderNotFound)) ∨
    (∃ o, findOrder db oid = some o ∧ validStatuses.contains st = true ∧
      updateStatus db u oid st msg now =
        (saveOrder db oid (applyStatusUpdate u st msg now o),
         .ok (applyStatusUpdate u st msg now o))) := by
  unfold updateStatus
  split
  next h => exact Or.inl ⟨by simpa using h, rfl⟩
  next h =>
    split
    next hfind => exact Or.inr (Or.inl ⟨hfind, rfl⟩)
    next o hfind =>
      refine Or.inr (Or.inr ⟨o, hfind, ?_, rfl⟩)
      simpa using h

lemma paymentVerify_spec (db : DB) (u : UserCtx) (oid : Nat) (pid : String) (now : Int) :
    (pid = "" ∧ paymentVerify db u oid pid now = (db, .error .missingFields)) ∨
    (findOrder db oid = none ∧
      paymentVerify db u oid pid now = (db, .error .orderNotFound)) ∨
    (∃ o, findOrder db oid = some o ∧ pid ≠ "" ∧
      paymentVerify db u oid pid now =
        (saveOrder db oid (verifyApply u pid now o), .ok (verifyApply u pid now o))) := by
  unfold paymentVerify
  split
  next h => exact Or.inl ⟨h, rfl⟩
  next h =>
    split
    next hfind => exact Or.inr (Or.inl ⟨hfind, rfl⟩)
    next o hfind => exact Or.inr (Or.inr ⟨o, hfind, h, rfl⟩)

lemma paymentFailed_spec (db : DB) (u : UserCtx) (oid : Nat) (reason : Option String)
    (now : Int) :
    (findOrder db oid = none ∧
      paymentFailed db u oid reason now = (db, .error .orderNotFound)) ∨
    (∃ o, findOrder db oid = some o ∧
      paymentFailed db u oid reason now =
        (saveOrder db oid (failedApply u reason now o), .ok (failedApply u reason now o))) := by
  unfold paymentFailed
  split
  next hfind => exact Or.inl ⟨hfind, rfl⟩
  next o hfind => exact Or.inr ⟨o, hfind, rfl⟩

lemma paymentCreateOrder_spec (db : DB) (u : UserCtx) (oid : Nat) (amount : Int)
    (now : Int) :
    (∃ e, paymentCreateOrder db u oid amount now = (db, .error e)) ∨
    (∃ o, findOrder db oid = some o ∧
      paymentCreateOrder db u oid amount now =
        (saveOrder db oid (createApply now o), .ok (createApply now o))) := by
  unfold paymentCreateOrder
  split
  · exact Or.inl ⟨_, rfl⟩
  · split
    · exact Or.inl ⟨_, rfl⟩
    next o hfind =>
      split
      · exact Or.inl ⟨_, rfl⟩
      · split
        · exact Or.inl ⟨_, rfl⟩
        · exact Or.inr ⟨o, hfind, rfl⟩

lemma bulkUpdate_spec (db : DB) (u : UserCtx) (oids : List Nat) (st : String)
    (msg : Option String) (now : Int) :
    (st = "" ∧ bulkUpdate db u oids st msg now = (db, .error .missingFields)) ∨
    (db.restaurants.find? (fun x => x.userId == u._id) = none ∧
      bulkUpdate db u oids st msg now = (db, .error .restaurantNotFound)) ∨
    (∃ r, db.restaurants.find? (fun x => x.userId == u._id) = some r ∧
      bulkUpdate db u oids st msg now =
        ({ db with orders := db.orders.map (fun o =>
            if bulkMatch oids r._id o then bulkApply u st msg now o else o) },
         .ok ⟨(db.orders.filter (bulkMatch oids r._id)).length, st⟩)) := by
  unfold bulkUpdate
  split
  next h => exact Or.inl ⟨h, rfl⟩
  · split
    next hr => exact Or.inr (Or.inl ⟨hr, rfl⟩)
    next r hr => exact Or.inr (Or.inr ⟨r, hr, rfl⟩)



/-- Every order in the store satisfies P. -/
def OrdersInv (P : Order → Prop) (db : DB) : Prop := ∀ o ∈ db.orders, P o

lemma ordersInv_saveOrder {P : Order → Prop} {db : DB} {oid : Nat} {o' : Order}
    (h : OrdersInv P db) (h' : P o') : OrdersInv P (saveOrder db oid o') := by
  intro o ho
  rcases List.mem_map.mp ho with ⟨x, hx, rfl⟩
  by_cases hid : (x._id == oid) = true
  · simpa [hid] using h'
  · simp only [Bool.not_eq_true] at hid
    simpa [hid] using h x hx

lemma ordersInv_map_ite {P : Order → Prop} {l : List Order} {p : Order → Bool}
    {f : Order → Order} (h : ∀ o ∈ l, P o) (hf : ∀ o, P o → P (f o)) :
    ∀ o ∈ l.map (fun x => if p x then f x else x), P o := by
  intro o ho
  rcases List.mem_map.mp ho with ⟨x, hx, rfl⟩
  by_cases hp : p x = true
  · simpa [hp] using hf x (h x hx)
  · simp only [Bool.not_eq_true] at hp
    simpa [hp] using h x hx

lemma reach_ordersInv (P : Order → Prop)
    (hplace : ∀ (db : DB) (u : UserCtx) (req : PlaceRequest) (now : Int) (o : Order),
      (placeOrder db u req now).2 = .ok o → P o)
    (hstatus : ∀ (u : UserCtx) (st : String) (msg : Option String) (now : Int) (o : Order),
      P o → P (applyStatusUpdate u st msg now o))
    (hverify : ∀ (u : UserCtx) (pid : String) (now : Int) (o : Order),
      P o → P (verifyApply u pid now o))
    (hfailed : ∀ (u : UserCtx) (reason : Option String) (now : Int) (o : Order),
      P o → P (failedApply u reason now o))
    (hcreate : ∀ (now : Int) (o : Order), P o → P (createApply now o))
    (hbulk : ∀ (u : UserCtx) (st : String) (msg : Option String) (now : Int) (o : Order),
      P o → P (bulkApply u st msg now o)) :
    ∀ db : DB, Reach db → OrdersInv P db := by
  intro db h
  induction h with
  | init => intro o ho; cases ho
  | seedRestaurant r db h ih => exact ih
  | seedMenuItem m db h ih => exact ih
  | place u req now db h ih =>
    rcases placeOrder_spec db u req now with ⟨e, he⟩ |
      ⟨rid, r, o, os, t, mp, _, _, _, heq, _⟩
    · rw [he]; exact ih
    · rw [heq]
      intro x hx
      rcases List.mem_append.mp hx with hx | hx
      · exact ih x hx
      · rcases List.mem_singleton.mp hx with rfl
        exact hplace db u req now x (by rw [heq])
  | status u oid st msg now db h ih =>
    rcases updateStatus_spec db u oid st msg now with ⟨_, he⟩ | ⟨_, he⟩ |
      ⟨o, hfind, _, heq⟩
    · rw [he]; exact ih
    · rw [he]; exact ih
    · rw [heq]
      exact ordersInv_saveOrder ih
        (hstatus u st msg now o (ih o (List.mem_of_find?_eq_some hfind)))
  | payCreate u oid amount now db h ih =>
    rcases paymentCreateOrder_spec db u oid amount now with ⟨e, he⟩ | ⟨o, hfind, heq⟩
    · rw [he]; exact ih
    · rw [heq]; exact ordersInv_saveOrder ih (hcreate now o (ih o (List.mem_of_find?_eq_some hfind)))
  | payVerify u oid pid now db h ih =>
    rcases paymentVerify_spec db u oid pid now with ⟨_, he⟩ | ⟨_, he⟩ | ⟨o, hfind, _, heq⟩
    · rw [he]; exact ih
    · rw [he]; exact ih
    · rw [heq]; exact ordersInv_saveOrder ih (hverify u pid now o (ih o (List.mem_of_find?_eq_some hfind)))
  | payFailed u oid reason now db h ih =>
    rcases paymentFailed_spec db u oid reason now with ⟨_, he⟩ | ⟨o, hfind, heq⟩
    · rw [he]; exact ih
    · rw [heq]; exact ordersInv_saveOrder ih (hfailed u reason now o (ih o (List.mem_of_find?_eq_some hfind)))
  | bulk u oids st msg now db h ih =>
    rcases bulkUpdate_spec db u oids st msg now with ⟨_, he⟩ | ⟨_, he⟩ | ⟨r, hr, heq⟩
    · rw [he]; exact ih
    · rw [he]; exact ih
    · rw [heq]
      exact fun o ho => ordersInv_map_ite ih (fun x hx => hbulk u st msg now x hx) o ho



lemma reach_tracking_len : ∀ db : DB, Reach db →
    ∀ o ∈ db.orders, 1 ≤ o.tracking.length := by
  have := reach_ordersInv (fun o => 1 ≤ o.tracking.length)
    (by intro db u req now o h
        obtain ⟨_, _, _, htr, _⟩ := placeOrder_ok_fields h
        rw [htr]; simp)
    (by intro u st msg now o h; simp [applyStatusUpdate])
    (by intro u pid now o h; simp [verifyApply])
    (by intro u reason now o h; simp [failedApply])
    (by intro now o h; simpa [createApply] using h)
    (by intro u st msg now o h; simp [bulkApply])
  exact this

lemma reach_pricing : ∀ db : DB, Reach db →
    ∀ o ∈ db.orders, o.totalAmount = o.itemsTotal + o.deliveryFee + o.taxes - o.discount := by
  have := reach_ordersInv
    (fun o => o.totalAmount = o.itemsTotal + o.deliveryFee + o.taxes - o.discount)
    (by intro db u req now o h
        obtain ⟨hd, ht, _⟩ := placeOrder_ok_fields h
        rw [ht, hd]; ring)
    (by intro u st msg now o h; simpa [applyStatusUpdate] using h)
    (by intro u pid now o h; simpa [verifyApply] using h)
    (by intro u reason now o h; simpa [failedApply] using h)
    (by intro now o h; simpa [createApply] using h)
    (by intro u st msg now o h; simpa [bulkApply] using h)
  exact this

lemma find?_map_update (l : List Order) (oid : Nat) (o' : Order) (h : o'._id = oid) :
    (l.map (fun x => if x._id == oid then o' else x)).find? (fun x => x._id == oid) =
      (l.find? (fun x => x._id == oid)).map (fun _ => o') := by
  induction l with
  | nil => rfl
  | cons a rest ih =>
    by_cases ha : a._id = oid
    · rw [List.map_cons, if_pos (by simpa using ha),
        List.find?_cons_of_pos _ (by simpa using h),
        List.find?_cons_of_pos _ (by simpa using ha)]
      rfl
    · rw [List.map_cons, if_neg (by simpa using ha),
        List.find?_cons_of_neg _ (by simpa using ha),
        List.find?_cons_of_neg _ (by simpa using ha)]
      exact ih

lemma bulkApply_ne (u : UserCtx) (st : String) (msg : Option String) (now : Int)
    (o : Order) : bulkApply u st msg now o ≠ o := by
  intro h
  have := congrArg (fun x => x.tracking.length) h
  simp [bulkApply] at this

lemma count_changed (l : List Order) (p : Order → Bool) (f : Order → Order)
    (hf : ∀ o, f o ≠ o) :
    (((l.map (fun o => if p o then f o else o)).zip l).filter
        (fun q => decide (q.1 ≠ q.2))).length = (l.filter p).length := by
  induction l with
  | nil => rfl
  | cons a rest ih =>
    by_cases hp : p a = true
    · rw [List.map_cons, if_pos hp, List.zip_cons_cons, List.filter_cons,
        List.filter_cons, hp]
      rw [if_pos (by simp [hf a])]
      simpa using ih
    · have hp' : p a = false := by simpa using hp
      rw [List.map_cons, if_neg (by simp [hp']), List.zip_cons_cons, List.filter_cons,
        List.filter_cons, hp']
      rw [if_neg (by simp)]
      simpa using ih



lemma processItems_unavailable (db : DB) (rid : Nat) :
    ∀ items : List CartItem,
    (∀ it ∈ items, ∃ mid m, it.menuItem = some mid ∧ 1 ≤ it.quantity ∧
        findMenuItem db mid = some m ∧ m.restaurantId = rid) →
    (∃ it ∈ items, ∃ mid m, it.menuItem = some mid ∧
        findMenuItem db mid = some m ∧ m.isAvailable = false) →
    ∃ name, processItems db rid items = .error (.itemUnavailable name) := by
  intro items
  induction items with
  | nil =>
    intro _ hex
    rcases hex with ⟨it, hit, _⟩
    cases hit
  | cons it rest ih =>
    intro hall hex
    obtain ⟨mid, m, hmi, hq, hfind, hrid⟩ := hall it (List.mem_cons_self it rest)
    by_cases hav : m.isAvailable = true
    · -- the head item passes the availability check; the witness is in the tail
      have hex' : ∃ it' ∈ rest, ∃ mid' m', it'.menuItem = some mid' ∧
          findMenuItem db mid' = some m' ∧ m'.isAvailable = false := by
        rcases hex with ⟨it', hit', mid', m', hmi', hfind', hnav⟩
        rcases List.mem_cons.mp hit' with rfl | hmem
        · rw [hmi] at hmi'
          injection hmi' with hmm
          subst hmm
          rw [hfind] at hfind'
          injection hfind' with hm
          rw [hm] at hav
          rw [hav] at hnav
          cases hnav
        · exact ⟨it', hmem, mid', m', hmi', hfind', hnav⟩
      obtain ⟨name, hname⟩ := ih (fun it' h' => hall it' (List.mem_cons_of_mem _ h')) hex'
      refine ⟨name, ?_⟩
      simp only [processItems, hmi, hfind]
      rw [if_neg (by omega), if_neg (by simp [hav]), if_neg (by simp [hrid]), hname]
    · refine ⟨m.name, ?_⟩
      have hav' : m.isAvailable = false := by simpa using hav
      simp only [processItems, hmi, hfind]
      rw [if_neg (by omega), if_pos (by simp [hav'])]



lemma findOrder_id {db : DB} {oid : Nat} {o : Order} (h : findOrder db oid = some o) :
    o._id = oid := by
  have := List.find?_some h
  simpa using this

lemma findOrder_saveOrder {db : DB} {oid : Nat} {o' : Order} (h : o'._id = oid) :
    findOrder (saveOrder db oid o') oid = (findOrder db oid).map (fun _ => o') :=
  find?_map_update db.orders oid o' h

/-- C1 (amended): PUT /api/orders/:id/status performs no terminal-state
    check.  For an order already in delivered, cancelled or refunded, a
    transition request with any accepted status value succeeds: it
    overwrites the status, appends one tracking entry, and the stored
    order reflects the change.  No OrderFinalized rejection exists. -/
theorem terminal_transition_accepted (db : DB) (u : UserCtx) (oid : Nat) (st : String)
    (msg : Option String) (now : Int) (o : Order)
    (hterm : o.status ∈ terminalStatuses)
    (hfind : findOrder db oid = some o)
    (hst : validStatuses.contains st = true) :
    ∃ o', updateStatus db u oid st msg now = (saveOrder db oid o', .ok o') ∧
      o'.status = st ∧
      o'.tracking = o.tracking ++ [⟨st, jsStrOr msg ("Order " ++ st), u._id, now⟩] ∧
      findOrder (updateStatus db u oid st msg now).1 oid = some o' := by
  rcases updateStatus_spec db u oid st msg now with ⟨hc, _⟩ | ⟨hn, _⟩ |
    ⟨o2, hfind2, _, heq⟩
  · rw [hst] at hc; cases hc
  · rw [hn] at hfind; cases hfind
  · rw [hfind] at hfind2
    injection hfind2 with h2
    subst h2
    refine ⟨applyStatusUpdate u st msg now o, heq, rfl, rfl, ?_⟩
    rw [heq]
    have : (applyStatusUpdate u st msg now o)._id = oid := by
      have h1 : o._id = oid := findOrder_id hfind
      simpa [applyStatusUpdate] using h1
    rw [findOrder_saveOrder this, hfind]
    rfl



/-- C1 counterexample: transitioning a delivered order to "preparing"
    succeeds and mutates the order, where the claim demands an
    OrderFinalized failure leaving it unchanged. -/
theorem terminal_transition_accepted_cex :
    deliveredOrder.status = "delivered" ∧
    ((updateStatus db1 u99 1 "preparing" none 7).2.toOption.map (fun o => o.status) =
      some "preparing") ∧
    ((findOrder (updateStatus db1 u99 1 "preparing" none 7).1 1).map
      (fun o => (o.status, o.tracking.length)) = some ("preparing", 3)) := by
  decide

/-- C1 witness: the amended theorem applied to a delivered order. -/
theorem terminal_transition_accepted_witness :
    ∃ o', updateStatus db1 u99 1 "preparing" none 7 = (saveOrder db1 1 o', .ok o') ∧
      o'.status = "preparing" ∧
      o'.tracking = deliveredOrder.tracking ++
        [⟨"preparing", jsStrOr none ("Order " ++ "preparing"), u99._id, 7⟩] ∧
      findOrder (updateStatus db1 u99 1 "preparing" none 7).1 1 = some o' :=
  terminal_transition_accepted db1 u99 1 "preparing" none 7 deliveredOrder
    (by decide) (by decide) (by decide)

/-- C2 counterexample: after a successful payment verification the
    order's status is "confirmed" but the last tracking entry's status is
    "payment_confirmed", so the last-entry invariant fails. -/
theorem tracking_last_status_cex :
    ((paymentVerify dbP cust5 1 "pay_1" 3).2.toOption.map
      (fun o => (o.status, o.tracking.getLast?.map (fun e => e.status)))) =
      some ("confirmed", some "payment_confirmed") ∧
    ("payment_confirmed" : String) ≠ "confirmed" := by
  decide

/-- C2 (amended): tracking history length is at least 1 for every order
    in every reachable store; after order creation and single or bulk
    status transitions the last tracking entry's status equals the
    order's status; payment-result mutations instead append entries
    labelled "payment_confirmed" / "payment_failed" (verify also sets the
    order's status to "confirmed", failed leaves it unchanged), so after
    them the last entry's status is that label, not the status field. -/
theorem tracking_history_invariant :
    (∀ db : DB, Reach db → ∀ o ∈ db.orders, 1 ≤ o.tracking.length) ∧
    (∀ (db : DB) (u : UserCtx) (req : PlaceRequest) (now : Int) (o : Order),
      (placeOrder db u req now).2 = .ok o →
      o.tracking.getLast?.map (fun e => e.status) = some o.status) ∧
    (∀ (db : DB) (u : UserCtx) (oid : Nat) (st : String) (msg : Option String)
      (now : Int) (o' : Order), (updateStatus db u oid st msg now).2 = .ok o' →
      o'.tracking.getLast?.map (fun e => e.status) = some o'.status) ∧
    (∀ (u : UserCtx) (st : String) (msg : Option String) (now : Int) (o : Order),
      (bulkApply u st msg now o).tracking.getLast?.map (fun e => e.status) =
        some (bulkApply u st msg now o).status) ∧
    (∀ (db : DB) (u : UserCtx) (oid : Nat) (pid : String) (now : Int) (o' : Order),
      (paymentVerify db u oid pid now).2 = .ok o' →
      o'.status = "confirmed" ∧
      o'.tracking.getLast?.map (fun e => e.status) = some "payment_confirmed") ∧
    (∀ (db : DB) (u : UserCtx) (oid : Nat) (reason : Option String) (now : Int)
      (o o' : Order), findOrder db oid = some o →
      (paymentFailed db u oid reason now).2 = .ok o' →
      o'.status = o.status ∧
      o'.tracking.getLast?.map (fun e => e.status) = some "payment_failed") := by
  refine ⟨reach_tracking_len, ?_, ?_, ?_, ?_, ?_⟩
  · intro db u req now o h
    obtain ⟨_, _, hst, htr, _⟩ := placeOrder_ok_fields h
    rw [htr, hst]
    rfl
  · intro db u oid st msg now o' h
    rcases updateStatus_spec db u oid st msg now with ⟨_, he⟩ | ⟨_, he⟩ |
      ⟨o, _, _, heq⟩
    · rw [he] at h; cases h
    · rw [he] at h; cases h
    · rw [heq] at h
      injection h with h'
      subst h'
      simp [applyStatusUpdate, List.getLast?_concat]
  · intro u st msg now o
    simp [bulkApply, List.getLast?_concat]
  · intro db u oid pid now o' h
    rcases paymentVerify_spec db u oid pid now with ⟨_, he⟩ | ⟨_, he⟩ | ⟨o, _, _, heq⟩
    · rw [he] at h; cases h
    · rw [he] at h; cases h
    · rw [heq] at h
      injection h with h'
      subst h'
      exact ⟨rfl, by simp [verifyApply, List.getLast?_concat]⟩
  · intro db u oid reason now o o' hfind h
    rcases paymentFailed_spec db u oid reason now with ⟨hn, he⟩ | ⟨o2, hfind2, heq⟩
    · rw [hn] at hfind; cases hfind
    · rw [hfind] at hfind2
      injection hfind2 with h2
      subst h2
      rw [heq] at h
      injection h with h'
      subst h'
      exact ⟨rfl, by simp [failedApply, List.getLast?_concat]⟩

/-- C2 witness: the length invariant at a concrete reachable store. -/
theorem tracking_history_invariant_witness :
    1 ≤ placedOrder1.tracking.length :=
  tracking_history_invariant.1 dbP reachDbP placedOrder1 (by decide)

/-- C3: for every order in every reachable store, and for every order
    returned by a successful placement (with discount defaulted to 0),
    totalAmount = itemsTotal + deliveryFee + taxes - discount; the
    equation holds at creation and is preserved by every operation. -/
theorem pricing_equation_invariant :
    (∀ db : DB, Reach db →
      ∀ o ∈ db.orders,
        o.totalAmount = o.itemsTotal + o.deliveryFee + o.taxes - o.discount) ∧
    (∀ (db : DB) (u : UserCtx) (req : PlaceRequest) (now : Int) (o : Order),
      (placeOrder db u req now).2 = .ok o →
      o.discount = 0 ∧
      o.totalAmount = o.itemsTotal + o.deliveryFee + o.taxes - o.discount) := by
  refine ⟨reach_pricing, ?_⟩
  intro db u req now o h
  obtain ⟨hd, ht, _⟩ := placeOrder_ok_fields h
  refine ⟨hd, ?_⟩
  rw [ht, hd]
  ring

/-- C3 witness: the pricing equation at a concretely placed order. -/
theorem pricing_equation_invariant_witness :
    placedOrder1.totalAmount =
      placedOrder1.itemsTotal + placedOrder1.deliveryFee + placedOrder1.taxes -
        placedOrder1.discount :=
  pricing_equation_invariant.1 dbP reachDbP placedOrder1 (by decide)



/-- C4: a cart containing an item whose menu item has isAvailable =
    false is rejected with ItemUnavailable and the store is returned
    unchanged: no order document is created. -/
theorem unavailable_item_rejects_order (db : DB) (u : UserCtx) (req : PlaceRequest)
    (now : Int) (rid : Nat) (r : Restaurant)
    (hrid : req.restaurantId = some rid)
    (hr : findRestaurant db rid = some r)
    (hact : r.isActive = true) (hacc : r.isAcceptingOrders = true)
    (hall : ∀ it ∈ req.items, ∃ mid m, it.menuItem = some mid ∧ 1 ≤ it.quantity ∧
        findMenuItem db mid = some m ∧ m.restaurantId = rid)
    (hex : ∃ it ∈ req.items, ∃ mid m, it.menuItem = some mid ∧
        findMenuItem db mid = some m ∧ m.isAvailable = false) :
    ∃ name, placeOrder db u req now = (db, .error (.itemUnavailable name)) := by
  obtain ⟨name, hname⟩ := processItems_unavailable db rid req.items hall hex
  refine ⟨name, ?_⟩
  have hne : req.items.isEmpty = false := by
    rcases hex with ⟨it, hit, _⟩
    cases h : req.items with
    | nil => rw [h] at hit; cases hit
    | cons a l => rfl
  simp only [placeOrder, hrid, hr, hname]
  rw [if_neg (by simp [hne]), if_neg (by simp [hact, hacc])]

/-- C4 witness: a concrete cart with the unavailable item2. -/
theorem unavailable_item_rejects_order_witness :
    ∃ name, placeOrder db0 cust5 reqUnavail 0 = (db0, .error (.itemUnavailable name)) :=
  unavailable_item_rejects_order db0 cust5 reqUnavail 0 1 rest1 rfl (by decide)
    (by decide) (by decide)
    (by intro it hit
        rcases List.mem_cons.mp hit with rfl | h2
        · exact ⟨1, item1, rfl, by decide, by decide, by decide⟩
        · rcases List.mem_cons.mp h2 with rfl | h3
          · exact ⟨2, item2, rfl, by decide, by decide, by decide⟩
          · cases h3)
    ⟨⟨some 2, 1, none⟩, by decide, 2, item2, rfl, by decide, by decide⟩

/-- C5 counterexample: for a restaurant whose deliveryFee is 0, the
    placed order's deliveryFee is 30 (the JS falsy default), not the
    claimed flat passthrough of 0. -/
theorem delivery_fee_passthrough_cex :
    restZero.deliveryFee = 0 ∧
    (placeOrder db0 cust5 reqZero 0).2.toOption.map (fun o => o.deliveryFee) =
      some 30 := by
  decide

/-- C5 (amended): the priced order's deliveryFee equals
    restaurant.deliveryFee whenever that fee is nonzero, but a zero fee
    is replaced by the default 30 (`restaurant.deliveryFee || 30`);
    taxes equals round(itemsTotal * 0.05). -/
theorem delivery_fee_and_taxes (db : DB) (u : UserCtx) (req : PlaceRequest) (now : Int)
    (rid : Nat) (r : Restaurant) (o : Order)
    (hrid : req.restaurantId = some rid)
    (hr : findRestaurant db rid = some r)
    (hok : (placeOrder db u req now).2 = .ok o) :
    o.deliveryFee = jsOr r.deliveryFee 30 ∧
    (r.deliveryFee ≠ 0 → o.deliveryFee = r.deliveryFee) ∧
    o.taxes = jsRoundTax o.itemsTotal := by
  rcases placeOrder_spec db u req now with ⟨e, he⟩ |
    ⟨rid2, r2, o2, os, t, mp, hrid2, hr2, _, heq, _, hit, hfee, htax, _⟩
  · rw [he] at hok; cases hok
  · rw [heq] at hok
    injection hok with h'
    subst h'
    rw [hrid] at hrid2
    injection hrid2 with h2
    subst h2
    rw [hr] at hr2
    injection hr2 with h3
    subst h3
    refine ⟨hfee, fun hnz => ?_, by rw [htax, hit]⟩
    rw [hfee]
    unfold jsOr
    rw [if_neg hnz]

/-- C5 witness: fee and taxes of a concretely placed order. -/
theorem delivery_fee_and_taxes_witness :
    placedOrder1.deliveryFee = jsOr rest1.deliveryFee 30 ∧
    (rest1.deliveryFee ≠ 0 → placedOrder1.deliveryFee = rest1.deliveryFee) ∧
    placedOrder1.taxes = jsRoundTax placedOrder1.itemsTotal :=
  delivery_fee_and_taxes db0 cust5 req1 0 1 rest1 placedOrder1 rfl (by decide)
    (by decide)

/-- C6 counterexample: a request with an item of quantity 0 against a
    nonexistent restaurant is rejected with RestaurantNotFound, not the
    claimed InvalidInput. -/
theorem validation_order_cex :
    findRestaurant db0 999 = none ∧
    reqBadQty.items.any (fun it => decide (it.quantity < 1)) = true ∧
    (placeOrder db0 cust5 reqBadQty 0).2 = .error .restaurantNotFound ∧
    (placeOrder db0 cust5 reqBadQty 0).2 ≠ .error .invalidItem := by
  decide

/-- C6 (amended): the non-empty-items check precedes the
    restaurant-existence check, but the per-item quantity check runs
    inside the item loop after the restaurant checks, so a quantity < 1
    item with a nonexistent restaurant yields RestaurantNotFound;
    validation short-circuits and every failure returns the store
    unchanged (no partial draft). -/
theorem validation_sequence :
    (∀ (db : DB) (u : UserCtx) (req : PlaceRequest) (now : Int) (rid : Nat),
      req.restaurantId = some rid → req.items = [] →
      placeOrder db u req now = (db, .error .emptyItems)) ∧
    (∀ (db : DB) (u : UserCtx) (req : PlaceRequest) (now : Int) (rid : Nat),
      req.restaurantId = some rid → req.items ≠ [] → findRestaurant db rid = none →
      placeOrder db u req now = (db, .error .restaurantNotFound)) ∧
    (∀ (db : DB) (u : UserCtx) (req : PlaceRequest) (now : Int) (e : PlaceError),
      (placeOrder db u req now).2 = .error e → (placeOrder db u req now).1 = db) := by
  refine ⟨?_, ?_, ?_⟩
  · intro db u req now rid hrid hempty
    simp [placeOrder, hrid, hempty]
  · intro db u req now rid hrid hne hnone
    have hne' : req.items.isEmpty = false := by
      cases h : req.items with
      | nil => exact absurd h hne
      | cons a l => rfl
    simp only [placeOrder, hrid, hnone]
    rw [if_neg (by simp [hne'])]
  · intro db u req now e h
    exact placeOrder_error_db h

/-- C6 witness: the nonexistent-restaurant branch at a concrete input. -/
theorem validation_sequence_witness :
    placeOrder db0 cust5 reqBadQty 0 = (db0, .error .restaurantNotFound) :=
  validation_sequence.2.1 db0 cust5 reqBadQty 0 999 rfl (by decide) (by decide)



/-- C7 counterexample: payment verification of an already-delivered
    order still sets its status to "confirmed", where the claim says a
    terminal order's status is not advanced. -/
theorem paid_terminal_advance_cex :
    deliveredOrder.status = "delivered" ∧
    ((paymentVerify db1 u99 1 "pay_9" 7).2.toOption.map
      (fun o => (o.status, o.paymentStatus, o.paymentId))) =
      some ("confirmed", "paid", some "pay_9") := by
  decide

/-- C7 (amended): a Paid outcome sets paymentStatus = "paid", records
    the gateway paymentId, and unconditionally sets the order's status to
    "confirmed" with a synthetic tracking entry labelled
    "payment_confirmed" - even when the order is already terminal; no
    terminal-state guard exists. -/
theorem paid_payment_effects (db : DB) (u : UserCtx) (oid : Nat) (pid : String)
    (now : Int) (o : Order) (hpid : pid ≠ "") (hfind : findOrder db oid = some o) :
    (paymentVerify db u oid pid now).2 = .ok (verifyApply u pid now o) ∧
    (verifyApply u pid now o).paymentStatus = "paid" ∧
    (verifyApply u pid now o).paymentId = some pid ∧
    (verifyApply u pid now o).status = "confirmed" ∧
    (verifyApply u pid now o).tracking =
      o.tracking ++ [⟨"payment_confirmed", "Payment successful - Order confirmed",
        u._id, now⟩] := by
  rcases paymentVerify_spec db u oid pid now with ⟨h0, _⟩ | ⟨h0, _⟩ |
    ⟨o2, hfind2, _, heq⟩
  · exact absurd h0 hpid
  · rw [h0] at hfind; cases hfind
  · rw [hfind] at hfind2
    injection hfind2 with h2
    subst h2
    exact ⟨by rw [heq], rfl, rfl, rfl, rfl⟩

/-- C7 witness: payment verification applied to a delivered order. -/
theorem paid_payment_effects_witness :
    (paymentVerify db1 u99 1 "pay_9" 7).2 = .ok (verifyApply u99 "pay_9" 7 deliveredOrder) ∧
    (verifyApply u99 "pay_9" 7 deliveredOrder).paymentStatus = "paid" ∧
    (verifyApply u99 "pay_9" 7 deliveredOrder).paymentId = some "pay_9" ∧
    (verifyApply u99 "pay_9" 7 deliveredOrder).status = "confirmed" ∧
    (verifyApply u99 "pay_9" 7 deliveredOrder).tracking =
      deliveredOrder.tracking ++ [⟨"payment_confirmed",
        "Payment successful - Order confirmed", u99._id, 7⟩] :=
  paid_payment_effects db1 u99 1 "pay_9" 7 deliveredOrder (by decide) (by decide)

/-- C8: the bulk status update applies the new status and appends one
    tracking entry to exactly the submitted orders owned by the caller's
    restaurant, reports updatedCount equal to the number of orders
    actually modified, and leaves every other order (foreign or
    unsubmitted) unchanged in the store. -/
theorem bulk_update_filtered (db : DB) (u : UserCtx) (orderIds : List Nat) (st : String)
    (msg : Option String) (now : Int) (r : Restaurant)
    (hst : st ≠ "")
    (hr : db.restaurants.find? (fun x => x.userId == u._id) = some r) :
    ∃ res : BulkResult, (bulkUpdate db u orderIds st msg now).2 = .ok res ∧
      res.newStatus = st ∧
      res.updatedCount =
        ((((bulkUpdate db u orderIds st msg now).1.orders).zip db.orders).filter
          (fun q => decide (q.1 ≠ q.2))).length ∧
      (∀ o ∈ db.orders, bulkMatch orderIds r._id o = false →
        o ∈ (bulkUpdate db u orderIds st msg now).1.orders) ∧
      (∀ o ∈ db.orders, bulkMatch orderIds r._id o = true →
        bulkApply u st msg now o ∈ (bulkUpdate db u orderIds st msg now).1.orders ∧
        (bulkApply u st msg now o).status = st ∧
        (bulkApply u st msg now o).tracking =
          o.tracking ++ [⟨st, jsStrOr msg ("Bulk updated to " ++ st), u._id, now⟩]) := by
  rcases bulkUpdate_spec db u orderIds st msg now with ⟨h0, _⟩ | ⟨h0, _⟩ |
    ⟨r2, hr2, heq⟩
  · exact absurd h0 hst
  · rw [h0] at hr; cases hr
  · rw [hr] at hr2
    injection hr2 with h2
    subst h2
    refine ⟨_, by rw [heq], rfl, ?_, ?_, ?_⟩
    · rw [heq]
      exact (count_changed db.orders (bulkMatch orderIds r._id)
        (bulkApply u st msg now) (bulkApply_ne u st msg now)).symm
    · intro o ho hm
      rw [heq]
      have himg : (fun x => if bulkMatch orderIds r._id x then bulkApply u st msg now x
          else x) o = o := by simp [hm]
      exact himg ▸ List.mem_map_of_mem _ ho
    · intro o ho hm
      refine ⟨?_, rfl, rfl⟩
      rw [heq]
      have himg : (fun x => if bulkMatch orderIds r._id x then bulkApply u st msg now x
          else x) o = bulkApply u st msg now o := by simp [hm]
      exact himg ▸ List.mem_map_of_mem _ ho

/-- C8 witness: 3 of 5 submitted orders belong to the caller's
    restaurant; updatedCount is 3 and a foreign order is unchanged. -/
theorem bulk_update_filtered_witness :
    ((bulkUpdate db8 owner10 [1, 2, 3, 4, 5] "confirmed" none 9).2.toOption.map
      (fun res => res.updatedCount) = some 3) ∧
    (mkOrd 4 2 ∈ (bulkUpdate db8 owner10 [1, 2, 3, 4, 5] "confirmed" none 9).1.orders) ∧
    (∃ res : BulkResult,
      (bulkUpdate db8 owner10 [1, 2, 3, 4, 5] "confirmed" none 9).2 = .ok res ∧
      res.newStatus = "confirmed" ∧
      res.updatedCount =
        ((((bulkUpdate db8 owner10 [1, 2, 3, 4, 5] "confirmed" none 9).1.orders).zip
            db8.orders).filter (fun q => decide (q.1 ≠ q.2))).length ∧
      (∀ o ∈ db8.orders, bulkMatch [1, 2, 3, 4, 5] rest1._id o = false →
        o ∈ (bulkUpdate db8 owner10 [1, 2, 3, 4, 5] "confirmed" none 9).1.orders) ∧
      (∀ o ∈ db8.orders, bulkMatch [1, 2, 3, 4, 5] rest1._id o = true →
        bulkApply owner10 "confirmed" none 9 o ∈
          (bulkUpdate db8 owner10 [1, 2, 3, 4, 5] "confirmed" none 9).1.orders ∧
        (bulkApply owner10 "confirmed" none 9 o).status = "confirmed" ∧
        (bulkApply owner10 "confirmed" none 9 o).tracking =
          o.tracking ++ [⟨"confirmed", jsStrOr none ("Bulk updated to " ++ "confirmed"),
            owner10._id, 9⟩])) :=
  ⟨by decide, by decide,
   bulk_update_filtered db8 owner10 [1, 2, 3, 4, 5] "confirmed" none 9 rest1
     (by decide) (by decide)⟩

/-- C9: the order-placement and status-update routes emit no events at
    all (so every lifecycle event trivially reaches only its order's
    channels), and the only broadcast to all connected clients is the
    test-notification message, which carries an explicit type mark. -/
theorem dispatch_targets :
    (∀ (db : DB) (u : UserCtx) (req : PlaceRequest) (now : Int),
      placeOrderEmissions db u req now = []) ∧
    (∀ (db : DB) (u : UserCtx) (oid : Nat) (st : String) (msg : Option String)
      (now : Int), updateStatusEmissions db u oid st msg now = []) ∧
    (∀ (db : DB) (u : UserCtx) (req : PlaceRequest) (oid : Nat) (st : String)
      (msg : Option String) (now : Int) (io_ : Bool) (ty tmsg : Option String)
      (e : Emission),
      e ∈ systemEmissions db u req oid st msg now io_ ty tmsg →
      e.target = EmitTarget.all →
      e.event = "test-notification" ∧ e.typeMark ≠ none) := by
  refine ⟨fun _ _ _ _ => rfl, fun _ _ _ _ _ _ => rfl, ?_⟩
  intro db u req oid st msg now io_ ty tmsg e he _
  simp only [systemEmissions, placeOrderEmissions, updateStatusEmissions,
    testNotificationEmissions, List.nil_append] at he
  by_cases hAvail : io_ = true
  · rw [hAvail] at he
    simp only [if_true] at he
    rcases List.mem_singleton.mp he with rfl
    exact ⟨rfl, by simp⟩
  · have : io_ = false := by simpa using hAvail
    rw [this] at he
    simp at he

/-- C9 witness: the broadcast characterization at the concrete
    test-notification emission. -/
theorem dispatch_targets_witness :
    placeOrderEmissions db0 cust5 req1 0 = [] ∧
    ((⟨EmitTarget.all, "test-notification", some "broadcast"⟩ : Emission).event =
        "test-notification" ∧
      (⟨EmitTarget.all, "test-notification", some "broadcast"⟩ : Emission).typeMark ≠
        none) :=
  ⟨dispatch_targets.1 db0 cust5 req1 0,
   dispatch_targets.2.2 db0 cust5 req1 1 "confirmed" none 0 true none none
     ⟨EmitTarget.all, "test-notification", some "broadcast"⟩ (by decide) rfl⟩

/-- C10: the single-order status update succeeds for every
    authenticated user on any existing order with an accepted status -
    there is no ownership, role, or Forbidden check - while GET
    /api/orders/:id rejects every user other than the owning customer or
    an admin with access denied. -/
theorem status_update_no_ownership_check (db : DB) (u : UserCtx) (oid : Nat)
    (st : String) (msg : Option String) (now : Int) (o : Order)
    (hfind : findOrder db oid = some o)
    (hst : validStatuses.contains st = true) :
    (∃ o', (updateStatus db u oid st msg now).2 = .ok o') ∧
    (∀ u' : UserCtx, o.customer ≠ u'._id → u'.role ≠ "admin" →
      getOrder db u' oid = .error .accessDenied) := by
  constructor
  · rcases updateStatus_spec db u oid st msg now with ⟨hc, _⟩ | ⟨hn, _⟩ |
      ⟨o2, _, _, heq⟩
    · rw [hst] at hc; cases hc
    · rw [hn] at hfind; cases hfind
    · exact ⟨_, by rw [heq]⟩
  · intro u' hc hr
    unfold getOrder
    simp only [hfind]
    rw [if_pos (by simp [hc, hr])]

/-- C10 witness: an unrelated delivery user updates the order; an
    unrelated customer cannot read it. -/
theorem status_update_no_ownership_check_witness :
    (∃ o', (updateStatus db1 u99 1 "preparing" none 7).2 = .ok o') ∧
    getOrder db1 u77 1 = .error .accessDenied :=
  ⟨(status_update_no_ownership_check db1 u99 1 "preparing" none 7 deliveredOrder
      (by decide) (by decide)).1,
   (status_update_no_ownership_check db1 u99 1 "preparing" none 7 deliveredOrder
      (by decide) (by decide)).2 u77 (by decide) (by decide)⟩

end DeliveryApp
